import Mathlib

/-!
# Verification of runcher's actions-UI panel builder

Shallow embedding of src/runcher/src/actions_ui/mod.rs.

The file models the script-option panel builder `new_launch_script_option`,
its widget-reaction slots (the preset-selector slot and the master-toggle
slot), the per-parameter widget initialization, the fallible constructor
`ActionsUI::new`, and `update_icons`.

Modelling conventions:
* The Qt settings store is a partial map from string keys to typed values
  (`Store`). `QVariant` conversions (`to_bool`, `to_string`, ...) are modelled
  for the value shapes these keys actually store.
* f32/f64 values carry no arithmetic in this file (they are only stored,
  loaded and parsed from finite decimal literals), so they are modelled as
  exact rationals and the f64↔f32 casts as the identity. The f32 special
  values inf/NaN are outside this exact-rational model, so the float parser
  covers the finite-decimal part of Rust's grammar.
* Widget visibility is an explicit boolean flag, initially `true`, written by
  `set_visible`.
* Qt change signals (`toggled`, `current_index_changed`, `value_changed`) fire
  only when the value actually changes; the event-step function guards on that.
-/

/-! ## Data model (from common_utils::sql) -/

inductive ParamType where
  | bool
  | integer
  | float
deriving DecidableEq

structure Parameter where
  key : String
  name : String
  type : ParamType
  default_value : String
deriving DecidableEq

structure ScriptMetadata where
  key : String
  name : String
  parameters : List Parameter
  automatic : Bool
deriving DecidableEq

structure SQLScript where
  metadata : ScriptMetadata
deriving DecidableEq

structure Preset where
  name : String
deriving DecidableEq

/-! ## Settings store and QVariant conversions -/

inductive SettingValue where
  | b (x : Bool)
  | i (x : Int)
  | f (x : Rat)
  | s (x : String)
deriving DecidableEq

def Store : Type := String → Option SettingValue

def Store.set (st : Store) (k : String) (v : SettingValue) : Store :=
  fun q => if q = k then some v else st q

def emptyStore : Store := fun _ => none

/-- Digit run to a natural number. -/
def digitsToNat (l : List Char) : Nat :=
  l.foldl (fun acc c => acc * 10 + (c.toNat - Char.toNat '0')) 0

/-- Leading sign of a numeric literal: (isNegative, rest). -/
def parseSignChars : List Char → Bool × List Char
  | '-' :: r => (true, r)
  | '+' :: r => (false, r)
  | r => (false, r)

/-- Rust `str::parse::<bool>`: exactly "true" or "false". -/
def parseBool (s : String) : Option Bool :=
  if s = "true" then some true else if s = "false" then some false else none

/-- Rust `str::parse::<i32>`: optional sign, a nonempty digit run, and an
i32 range check (out-of-range input is a parse error). -/
def parseI32 (s : String) : Option Int :=
  let p := parseSignChars s.toList
  if p.2.isEmpty || !(p.2.all Char.isDigit) then none
  else
    let n : Int := (digitsToNat p.2 : Int)
    let v : Int := if p.1 then -n else n
    if -(2 ^ 31) ≤ v ∧ v < 2 ^ 31 then some v else none

/-- Split a literal at the first exponent marker. -/
def splitExpChars (l : List Char) : List Char × Option (List Char) :=
  let p := l.span (fun c => !(c == 'e' || c == 'E'))
  match p.2 with
  | [] => (p.1, none)
  | _ :: rest => (p.1, some rest)

/-- Mantissa of Rust's float grammar: `Digit+ | Digit+ . Digit* | . Digit+`.
Returns the digits as a natural number together with the fraction length. -/
def parseMantissa (l : List Char) : Option (Nat × Nat) :=
  let p := l.span Char.isDigit
  match p.2 with
  | [] => if p.1.isEmpty then none else some (digitsToNat p.1, 0)
  | '.' :: fp =>
    if fp.all Char.isDigit then
      if p.1.isEmpty && fp.isEmpty then none
      else some (digitsToNat (p.1 ++ fp), fp.length)
    else none
  | _ => none

/-- Exponent part: absent means 10^0, present needs `Sign? Digit+`. -/
def parseExpDigits : Option (List Char) → Option Int
  | none => some 0
  | some es =>
    let p := parseSignChars es
    if p.2.isEmpty || !(p.2.all Char.isDigit) then none
    else some (if p.1 then -(digitsToNat p.2 : Int) else (digitsToNat p.2 : Int))

/-- Scale a rational by a power of ten. -/
def applyExp (q : Rat) (e : Int) : Rat :=
  match e with
  | Int.ofNat n => q * ((10 : Rat) ^ n)
  | Int.negSucc n => q / ((10 : Rat) ^ (n + 1))

/-- Rust `str::parse::<f32>` on the finite-decimal part of its grammar,
with the parsed value kept as an exact rational (see the module comment). -/
def parseF32 (s : String) : Option Rat :=
  let p := parseSignChars s.toList
  let q := splitExpChars p.2
  match parseMantissa q.1, parseExpDigits q.2 with
  | some m, some e =>
    let base : Rat := (m.1 : Rat) / ((10 : Rat) ^ m.2)
    let v := applyExp base e
    some (if p.1 then -v else v)
  | _, _ => none

/-- ASCII lower-casing of one character (the settings values this file
stores and compares are ASCII). -/
def lowerChar (c : Char) : Char :=
  if c.isUpper then Char.ofNat (c.toNat + 32) else c

/-- ASCII lower-casing of a string. -/
def asciiLower (s : String) : String :=
  String.mk (s.data.map lowerChar)

/-- `QVariant::toBool` for the value shapes these settings keys store:
a string converts to `false` iff (lower-cased) it is empty, "0" or "false". -/
def qvariantToBool : SettingValue → Bool
  | .b x => x
  | .i x => x != 0
  | .f x => x != 0
  | .s x =>
    let l := asciiLower x
    !(l == "" || l == "0" || l == "false")

/-- `QVariant::toInt` for the value shapes these settings keys store. -/
def qvariantToInt : SettingValue → Int
  | .b x => if x then 1 else 0
  | .i x => x
  | .f x => (x + (1 : Rat) / 2).floor
  | .s x => (parseI32 x).getD 0

/-- `QVariant::toFloat` for the value shapes these settings keys store. -/
def qvariantToRat : SettingValue → Rat
  | .b x => if x then 1 else 0
  | .i x => (x : Rat)
  | .f x => x
  | .s x => (parseF32 x).getD 0

/-- `QVariant::toString` for the value shapes these settings keys store. -/
def qvariantToString : SettingValue → String
  | .b x => if x then "true" else "false"
  | .i x => toString x
  | .f x => toString x
  | .s x => x

/-- `QVariant::toString` of a possibly-invalid variant (invalid gives ""). -/
def qvariantToStringOpt : Option SettingValue → String
  | none => ""
  | some v => qvariantToString v

/-- rpfm_ui_common `setting_bool`: `settings().value(key).to_bool()`,
an invalid (absent) variant converting to `false`. -/
def setting_bool (st : Store) (k : String) : Bool :=
  match st k with
  | some v => qvariantToBool v
  | none => false

/-- rpfm_ui_common `setting_int` (absent key gives 0). -/
def setting_int (st : Store) (k : String) : Int :=
  match st k with
  | some v => qvariantToInt v
  | none => 0

/-- rpfm_ui_common `setting_f32` (absent key gives 0). -/
def setting_f32 (st : Store) (k : String) : Rat :=
  match st k with
  | some v => qvariantToRat v
  | none => 0

/-! ## Settings keys used by `new_launch_script_option` -/

/-- `format!("script_to_execute_{}_{}", game_key, script_key)`. -/
def enabledSettingKey (game_key script_key : String) : String :=
  "script_to_execute_" ++ game_key ++ "_" ++ script_key

/-- `format!("script_to_execute_{}_{}_{}", game_key, script_key, param_key)`. -/
def paramSettingKey (game_key script_key param_key : String) : String :=
  enabledSettingKey game_key script_key ++ "_" ++ param_key

/-- `format!("script_to_execute_{}_{}_preset", game_key, script_key)`. -/
def presetSettingKey (game_key script_key : String) : String :=
  paramSettingKey game_key script_key "preset"

/-! ## Widgets -/

structure ComboBox where
  items : List String
  currentIndex : Nat
  visible : Bool
deriving DecidableEq

/-- `QComboBox::itemText` (out of range gives the empty string). -/
def ComboBox.itemText (c : ComboBox) (i : Nat) : String :=
  c.items.getD i ""

inductive ParamValue where
  | pb (x : Bool)
  | pi (x : Int)
  | pf (x : Rat)
deriving DecidableEq

def ParamValue.typeOf : ParamValue → ParamType
  | .pb _ => .bool
  | .pi _ => .integer
  | .pf _ => .float

structure ParamWidget where
  settingKey : String
  objectName : String
  value : ParamValue
deriving DecidableEq

def dummyParam : Parameter := ⟨"", "", .bool, ""⟩

def dummyWidget : ParamWidget := ⟨"", "", .pb false⟩

/-- Static data captured by the panel's slot closures. -/
structure PanelCtx where
  gameKey : String
  scriptKey : String
  thereArePresets : Bool
  comboConnected : Bool
  automatic : Bool
deriving DecidableEq

/-- Observable state of one script panel, plus the live settings store. -/
structure Panel where
  combo : Option ComboBox
  presetLabelVisible : Option Bool
  presetsEnabled : Bool
  paramsEnabled : Bool
  paramWidgets : List ParamWidget
  checkboxChecked : Bool
  iconVisible : Bool
  textVisible : Bool
  fillVisible : Bool
  checkboxVisible : Bool
  presetsContainerVisible : Bool
  paramsContainerVisible : Bool
  isPresetSelected : Bool
  iconKey : String
  ctx : PanelCtx
  store : Store

/-! ## The preset block (mod.rs lines 119–163) -/

structure PresetStage where
  combo : Option ComboBox
  labelVisible : Option Bool
  tap : Bool
  ips : Bool
  store : Store
  connected : Bool

/-- Lines 119–163: create the preset selector when the script has parameters,
hide it when no presets were supplied, otherwise populate it, restore the
persisted choice (`set_current_text` selects the first matching entry and
leaves the index unchanged when nothing matches), and either record that a
preset is selected or clear the persisted choice to the empty string.
`tap` is the local `there_are_presets`, `ips` is `is_preset_selected`,
`connected` records whether the `current_index_changed` slot was registered. -/
def presetStage (game_key script_key : String) (script_params : List Parameter)
    (presets : List Preset) (st : Store) : PresetStage :=
  if script_params.isEmpty then
    ⟨none, none, false, false, st, false⟩
  else if presets.isEmpty then
    ⟨some ⟨["No Preset"], 0, false⟩, some false, false, false, st, false⟩
  else
    let items := "No Preset" :: presets.map Preset.name
    let setting_key := presetSettingKey game_key script_key
    let idx :=
      match st setting_key with
      | some v =>
        let str := qvariantToString v
        if str = "" then 0 else ((items.findIdx? (fun it => it == str)).getD 0)
      | none => 0
    if idx ≠ 0 then
      ⟨some ⟨items, idx, true⟩, some true, true, true, st, true⟩
    else
      ⟨some ⟨items, 0, true⟩, some true, true, false, st.set setting_key (.s ""), true⟩

/-! ## Parameter widgets (mod.rs lines 168–230) -/

/-- Lines 168–229: one editor control per parameter. `use_default` is
`!settings.value(..).is_valid()`; a present setting wins, otherwise the
default string is parsed per type with `unwrap_or_default` (false / 0 / 0.0). -/
def initParamWidget (game_key script_key : String) (st : Store) (param : Parameter) :
    ParamWidget :=
  let setting := paramSettingKey game_key script_key param.key
  let use_default := (st setting).isNone
  { settingKey := setting
    objectName := script_key ++ "_" ++ param.key
    value :=
      match param.type with
      | .bool =>
        .pb (if use_default then (parseBool param.default_value).getD false
             else setting_bool st setting)
      | .integer =>
        .pi (if use_default then (parseI32 param.default_value).getD 0
             else setting_int st setting)
      | .float =>
        .pf (if use_default then (parseF32 param.default_value).getD 0
             else setting_f32 st setting) }

/-! ## The master-toggle slot (mod.rs lines 270–280) -/

/-- The `toggled` slot: enable the presets container to match the new state,
re-read the persisted preset text and enable the parameter controls iff
there are no presets or that text is empty, then persist the toggle state. -/
def toggleSlot (p : Panel) (state : Bool) : Panel :=
  let preset_setting_key := presetSettingKey p.ctx.gameKey p.ctx.scriptKey
  let preset_setting := qvariantToStringOpt (p.store preset_setting_key)
  let setting := enabledSettingKey p.ctx.gameKey p.ctx.scriptKey
  { p with
    checkboxChecked := state
    presetsEnabled := state
    paramsEnabled := !p.ctx.thereArePresets || (p.ctx.thereArePresets && (preset_setting == ""))
    store := p.store.set setting (.b state) }

/-! ## Panel construction (mod.rs lines 99–284) -/

/-- `new_launch_script_option`: both containers start disabled (lines 105–106),
the preset block runs (119–163), line 166 computes the initial
parameter-controls enablement `!tap || (tap && !ips)`, the parameter widgets
are built (168–230), an automatic script hides every visual element (253–261),
and finally `set_checked(is_enabled || automatic)` (282) fires the `toggled`
slot exactly when it changes the (initially unchecked) checkbox. -/
def buildPanel (game_key icon_key : String) (script : SQLScript) (presets : List Preset)
    (st : Store) : Panel :=
  let script_key := script.metadata.key
  let script_params := script.metadata.parameters
  let stage := presetStage game_key script_key script_params presets st
  let widgets := script_params.map (initParamWidget game_key script_key stage.store)
  let auto := script.metadata.automatic
  let setting := enabledSettingKey game_key script_key
  let is_enabled := setting_bool stage.store setting
  let p0 : Panel :=
    { combo := stage.combo
      presetLabelVisible := stage.labelVisible
      presetsEnabled := false
      paramsEnabled := !stage.tap || (stage.tap && !stage.ips)
      paramWidgets := widgets
      checkboxChecked := false
      iconVisible := !auto
      textVisible := !auto
      fillVisible := !auto
      checkboxVisible := !auto
      presetsContainerVisible := !auto
      paramsContainerVisible := !auto
      isPresetSelected := stage.ips
      iconKey := icon_key
      ctx := ⟨game_key, script_key, stage.tap, stage.connected, auto⟩
      store := stage.store }
  if is_enabled || auto then toggleSlot p0 true else p0

/-! ## User-interaction events -/

inductive Event where
  | selectPreset (i : Nat)
  | toggleMaster (b : Bool)
  | setParam (j : Nat) (v : ParamValue)

/-- One user-interaction event on the panel. Selecting a preset entry moves
the combo index and, when the `current_index_changed` slot was registered
(lines 157–161), enables the parameter controls iff the new index is 0 and
persists `item_text(index)`. Toggling the master checkbox runs the `toggled`
slot. Changing a parameter control persists the new value through the
per-widget slot (lines 193–195, 209–211, 225–227). Each signal fires only on
an actual value change. -/
def step (p : Panel) : Event → Panel
  | .selectPreset i =>
    match p.combo with
    | none => p
    | some c =>
      if i < c.items.length ∧ i ≠ c.currentIndex then
        let p1 := { p with combo := some { c with currentIndex := i } }
        if p.ctx.comboConnected then
          { p1 with
            paramsEnabled := (i == 0)
            store := p1.store.set (presetSettingKey p.ctx.gameKey p.ctx.scriptKey)
              (.s (c.itemText i)) }
        else p1
      else p
  | .toggleMaster b =>
    if b = p.checkboxChecked then p else toggleSlot p b
  | .setParam j v =>
    if j < p.paramWidgets.length then
      let w := p.paramWidgets.getD j dummyWidget
      match w.value, v with
      | .pb a, .pb x =>
        if a = x then p
        else { p with paramWidgets := p.paramWidgets.set j { w with value := v }
                      store := p.store.set w.settingKey (.b x) }
      | .pi a, .pi x =>
        if a = x then p
        else { p with paramWidgets := p.paramWidgets.set j { w with value := v }
                      store := p.store.set w.settingKey (.i x) }
      | .pf a, .pf x =>
        if a = x then p
        else { p with paramWidgets := p.paramWidgets.set j { w with value := v }
                      store := p.store.set w.settingKey (.f x) }
      | _, _ => p
    else p

def runEvents (p : Panel) (es : List Event) : Panel :=
  es.foldl step p

/-! ## `update_icons` (mod.rs lines 308–344) -/

/-- The arms of the `match index` inside `update_icons` (lines 330–341):
the icon theme key whose pixmap the arm assigns, `none` for the wildcard. -/
def launchOptionIconKeys : Nat → Option String
  | 0 => some "verb"
  | 1 => some "kdenlive-hide-video"
  | 2 => some "folder-unlocked-symbolic"
  | 3 => some "folder-unlocked-symbolic"
  | 4 => some "language-chooser"
  | 5 => some "merge"
  | 6 => some "view-time-schedule-calculus"
  | 7 => some "autocorrection"
  | 8 => some "verb"
  | _ => none

/-- Indices of the play-button menu actions whose icon label `update_icons`
assigns a pixmap to, for a menu of `n` actions: the loop visits every index,
the guard requires `index < 8`, and inside it the match arm must assign. -/
def updatedIconIndices (n : Nat) : List Nat :=
  (List.range n).filter (fun i => decide (i < 8) && (launchOptionIconKeys i).isSome)

/-! ## `ActionsUI::new` (mod.rs lines 367–483) -/

/-- Environment consumed by the constructor: the template loader and the
named-widget lookup, both fallible (they are the only fallible operations;
everything else in `new` is plain widget construction). -/
structure NewEnv where
  load_template : Except String String
  find_widget : String → Except String String

/-- The named widgets `new` looks up inside the loaded template, in source
order (lines 374, 399–400, 416–419, 425–428, 436). -/
def requiredWidgetNames : List String :=
  ["play_button", "settings_button", "folders_button",
   "copy_load_order_button", "paste_load_order_button", "reload_button",
   "download_subscribed_mods_button",
   "profile_load_button", "profile_save_button", "profile_manager_button",
   "profile_combobox", "save_combobox"]

/-- Sequential `find_widget(..)?` lookups: the first failure propagates. -/
def lookupWidgets (f : String → Except String String) : List String → Except String (List String)
  | [] => Except.ok []
  | n :: ns =>
    match f n with
    | Except.error e => Except.error e
    | Except.ok w =>
      match lookupWidgets f ns with
      | Except.error e => Except.error e
      | Except.ok ws => Except.ok (w :: ws)

/-- `ActionsUI::new`: load the template with `?`, look the named widgets up
with `?`, and only then assemble the value. Failures are propagated to the
caller, never handled locally. -/
def newActionsUI (env : NewEnv) : Except String (String × List String) :=
  match env.load_template with
  | Except.error e => Except.error e
  | Except.ok main =>
    match lookupWidgets env.find_widget requiredWidgetNames with
    | Except.error e => Except.error e
    | Except.ok ws => Except.ok (main, ws)

/-! ## Spec-side definitions (worded from the claims) -/

/-- Claim wording: presets are available iff the script has at least one
parameter and the supplied preset list is non-empty. -/
def presetsAvailable (script : SQLScript) (presets : List Preset) : Bool :=
  !script.metadata.parameters.isEmpty && !presets.isEmpty

/-- Claim wording: a preset is currently selected iff the preset selector is
not at the sentinel index 0. -/
def panelPresetSelected (p : Panel) : Bool :=
  match p.combo with
  | some c => c.currentIndex != 0
  | none => false

/-- Claim wording (C5): the selector index that results from loading the
persisted preset choice — when the setting is present and its text non-empty
the selector is set to that text (the first matching entry; no match leaves
the sentinel selected), otherwise it stays at the sentinel. -/
def specLoadedIndex (stored : Option SettingValue) (items : List String) : Nat :=
  match stored with
  | some v =>
    let str := qvariantToString v
    if str = "" then 0 else ((items.findIdx? (fun it => it == str)).getD 0)
  | none => 0

/-- Claim wording (C6): a parameter control is initialized from the persisted
setting when present, and otherwise from the default value parsed per the
parameter type, a parse failure falling back to the type's zero value. -/
def specInitValue (param : Parameter) (stored : Option SettingValue) : ParamValue :=
  match stored with
  | some v =>
    match param.type with
    | .bool => .pb (qvariantToBool v)
    | .integer => .pi (qvariantToInt v)
    | .float => .pf (qvariantToRat v)
  | none =>
    match param.type with
    | .bool => .pb ((parseBool param.default_value).getD false)
    | .integer => .pi ((parseI32 param.default_value).getD 0)
    | .float => .pf ((parseF32 param.default_value).getD 0)

/-! ## Concrete sample inputs -/

/-- A script with one Bool parameter and no special features. -/
def script1 : SQLScript := ⟨⟨"s1", "Script One", [⟨"x", "X", .bool, "false"⟩], false⟩⟩

def presets1 : List Preset := [⟨"p"⟩]

/-- A script with one parameter, used with an empty preset list. -/
def script3 : SQLScript := ⟨⟨"s3", "Script Three", [⟨"x", "X", .bool, "false"⟩], false⟩⟩

/-- A script whose single parameter is keyed "preset": its settings key
collides with the preset-selection settings key. -/
def script6 : SQLScript := ⟨⟨"s6", "Script Six", [⟨"preset", "P", .bool, "true"⟩], false⟩⟩

/-- Same collision, with default "false", for the round-trip counterexample. -/
def script7 : SQLScript := ⟨⟨"s7", "Script Seven", [⟨"preset", "P", .bool, "false"⟩], false⟩⟩

/-- An automatic script. -/
def scriptAuto : SQLScript := ⟨⟨"sa", "Auto Script", [⟨"x", "X", .bool, "false"⟩], true⟩⟩

/-- A script with three parameters, one of each type. -/
def scriptW : SQLScript :=
  ⟨⟨"sw", "Witness Script",
    [⟨"b", "B", .bool, "true"⟩, ⟨"n", "N", .integer, "7"⟩, ⟨"f", "F", .float, "1.5"⟩],
    false⟩⟩

/-- A script with a malformed integer default. -/
def scriptBadDefault : SQLScript :=
  ⟨⟨"sb", "Bad Default", [⟨"n", "N", .integer, "not_a_number"⟩], false⟩⟩

/-- A script with no parameters. -/
def scriptNoParams : SQLScript := ⟨⟨"s0", "No Params", [], false⟩⟩

/-- Invariant of a panel built for a script with parameters but no presets:
the preset selector exists, is hidden and stays at the sentinel, and the
parameter controls are enabled. -/
def c3Inv (p : Panel) : Prop :=
  p.combo = some ⟨["No Preset"], 0, false⟩ ∧
  p.presetLabelVisible = some false ∧
  p.ctx.thereArePresets = false ∧
  p.paramsEnabled = true

/-- An environment in which the template loads and every lookup succeeds. -/
def envOk : NewEnv := ⟨Except.ok "main", fun n => Except.ok n⟩

/-- A store with a persisted preset choice for `scriptW`. -/
def stW5 : Store := emptyStore.set (presetSettingKey "g" "sw") (.s "p")

/-! ## Helper lemmas -/

theorem Store.set_self (st : Store) (k : String) (v : SettingValue) :
    (st.set k v) k = some v := by
  simp [Store.set]

theorem Store.set_ne (st : Store) (k : String) (v : SettingValue) (q : String) (h : q ≠ k) :
    (st.set k v) q = st q := by
  simp [Store.set, h]

theorem string_append_cancel_left (x a b : String) (h : x ++ a = x ++ b) : a = b := by
  have hd : (x ++ a).data = (x ++ b).data := congrArg String.data h
  rw [String.data_append, String.data_append] at hd
  exact String.ext (List.append_cancel_left hd)

theorem paramKey_inj (g s a b : String)
    (h : paramSettingKey g s a = paramSettingKey g s b) : a = b :=
  string_append_cancel_left (enabledSettingKey g s ++ "_") a b h

theorem enabledKey_ne_presetKey (g s : String) :
    enabledSettingKey g s ≠ presetSettingKey g s := by
  intro h
  have hl := congrArg String.length h
  have h6 : ("preset" : String).length = 6 := rfl
  have h1 : ("_" : String).length = 1 := rfl
  simp only [presetSettingKey, paramSettingKey, String.length_append, h6, h1] at hl
  omega

theorem paramKey_ne_enabledKey (g s p : String) :
    paramSettingKey g s p ≠ enabledSettingKey g s := by
  intro h
  have hl := congrArg String.length h
  have h1 : ("_" : String).length = 1 := rfl
  simp only [paramSettingKey, String.length_append, h1] at hl
  omega

theorem paramKey_ne_presetKey (g s p : String) (hp : p ≠ "preset") :
    paramSettingKey g s p ≠ presetSettingKey g s :=
  fun h => hp (paramKey_inj g s p "preset" h)

theorem setting_bool_congr {st1 st2 : Store} {k : String} (h : st1 k = st2 k) :
    setting_bool st1 k = setting_bool st2 k := by
  unfold setting_bool
  rw [h]

theorem presetStage_store_at (g s : String) (params : List Parameter) (presets : List Preset)
    (st : Store) (k : String) (hk : presets = [] ∨ k ≠ presetSettingKey g s) :
    (presetStage g s params presets st).store k = st k := by
  unfold presetStage
  split
  · rfl
  split
  · rfl
  rename_i hpr
  rcases hk with hk | hk
  · subst hk
    simp at hpr
  · dsimp only
    split
    · rfl
    · exact Store.set_ne st (presetSettingKey g s) (.s "") k hk

theorem buildPanel_combo (g ik : String) (script : SQLScript) (presets : List Preset) (st : Store) :
    (buildPanel g ik script presets st).combo =
      (presetStage g script.metadata.key script.metadata.parameters presets st).combo := by
  unfold buildPanel
  dsimp only
  split <;> rfl

theorem buildPanel_labelVisible (g ik : String) (script : SQLScript) (presets : List Preset)
    (st : Store) :
    (buildPanel g ik script presets st).presetLabelVisible =
      (presetStage g script.metadata.key script.metadata.parameters presets st).labelVisible := by
  unfold buildPanel
  dsimp only
  split <;> rfl

theorem buildPanel_ips (g ik : String) (script : SQLScript) (presets : List Preset) (st : Store) :
    (buildPanel g ik script presets st).isPresetSelected =
      (presetStage g script.metadata.key script.metadata.parameters presets st).ips := by
  unfold buildPanel
  dsimp only
  split <;> rfl

theorem buildPanel_ctx (g ik : String) (script : SQLScript) (presets : List Preset) (st : Store) :
    (buildPanel g ik script presets st).ctx =
      ⟨g, script.metadata.key,
        (presetStage g script.metadata.key script.metadata.parameters presets st).tap,
        (presetStage g script.metadata.key script.metadata.parameters presets st).connected,
        script.metadata.automatic⟩ := by
  unfold buildPanel
  dsimp only
  split <;> rfl

theorem buildPanel_paramWidgets (g ik : String) (script : SQLScript) (presets : List Preset)
    (st : Store) :
    (buildPanel g ik script presets st).paramWidgets =
      script.metadata.parameters.map
        (initParamWidget g script.metadata.key
          (presetStage g script.metadata.key script.metadata.parameters presets st).store) := by
  unfold buildPanel
  dsimp only
  split <;> rfl

theorem buildPanel_checked (g ik : String) (script : SQLScript) (presets : List Preset)
    (st : Store) :
    (buildPanel g ik script presets st).checkboxChecked =
      (setting_bool st (enabledSettingKey g script.metadata.key) || script.metadata.automatic) := by
  have hst : (presetStage g script.metadata.key script.metadata.parameters presets st).store
      (enabledSettingKey g script.metadata.key) = st (enabledSettingKey g script.metadata.key) :=
    presetStage_store_at _ _ _ _ _ _ (Or.inr (enabledKey_ne_presetKey g script.metadata.key))
  have hb := setting_bool_congr hst
  unfold buildPanel
  dsimp only
  split
  · rename_i h
    rw [← hb]
    simp only [toggleSlot]
    exact h.symm
  · rename_i h
    rw [← hb]
    simp only [Bool.not_eq_true] at h
    exact h.symm

theorem buildPanel_store_at (g ik : String) (script : SQLScript) (presets : List Preset)
    (st : Store) (k : String)
    (h1 : k ≠ enabledSettingKey g script.metadata.key)
    (h2 : presets = [] ∨ k ≠ presetSettingKey g script.metadata.key) :
    (buildPanel g ik script presets st).store k = st k := by
  have hst := presetStage_store_at g script.metadata.key script.metadata.parameters presets st k h2
  unfold buildPanel
  dsimp only
  split
  · simp only [toggleSlot]
    rw [Store.set_ne _ _ _ _ h1]
    exact hst
  · exact hst

theorem buildPanel_iconVisible (g ik : String) (script : SQLScript) (presets : List Preset)
    (st : Store) :
    (buildPanel g ik script presets st).iconVisible = !script.metadata.automatic := by
  unfold buildPanel
  dsimp only
  split <;> rfl

theorem buildPanel_textVisible (g ik : String) (script : SQLScript) (presets : List Preset)
    (st : Store) :
    (buildPanel g ik script presets st).textVisible = !script.metadata.automatic := by
  unfold buildPanel
  dsimp only
  split <;> rfl

theorem buildPanel_fillVisible (g ik : String) (script : SQLScript) (presets : List Preset)
    (st : Store) :
    (buildPanel g ik script presets st).fillVisible = !script.metadata.automatic := by
  unfold buildPanel
  dsimp only
  split <;> rfl

theorem buildPanel_checkboxVisible (g ik : String) (script : SQLScript) (presets : List Preset)
    (st : Store) :
    (buildPanel g ik script presets st).checkboxVisible = !script.metadata.automatic := by
  unfold buildPanel
  dsimp only
  split <;> rfl

theorem buildPanel_presetsContainerVisible (g ik : String) (script : SQLScript)
    (presets : List Preset) (st : Store) :
    (buildPanel g ik script presets st).presetsContainerVisible = !script.metadata.automatic := by
  unfold buildPanel
  dsimp only
  split <;> rfl

theorem buildPanel_paramsContainerVisible (g ik : String) (script : SQLScript)
    (presets : List Preset) (st : Store) :
    (buildPanel g ik script presets st).paramsContainerVisible = !script.metadata.automatic := by
  unfold buildPanel
  dsimp only
  split <;> rfl

theorem getD_map_lt {α β : Type} (f : α → β) (l : List α) (j : Nat) (h : j < l.length)
    (d : β) (d0 : α) : (l.map f).getD j d = f (l.getD j d0) := by
  induction l generalizing j with
  | nil => simp at h
  | cons a t ih =>
    cases j with
    | zero => rfl
    | succ n =>
      simp only [List.map_cons, List.getD_cons_succ]
      exact ih n (by simpa using h)

theorem initParamWidget_value (g sk : String) (st : Store) (param : Parameter) :
    (initParamWidget g sk st param).value =
      specInitValue param (st (paramSettingKey g sk param.key)) := by
  rcases param with ⟨pk, pn, pt, pd⟩
  cases pt <;> cases h : st (paramSettingKey g sk pk) <;>
    simp [initParamWidget, specInitValue, setting_bool, setting_int, setting_f32, h]

theorem initParamWidget_settingKey (g sk : String) (st : Store) (param : Parameter) :
    (initParamWidget g sk st param).settingKey = paramSettingKey g sk param.key := rfl

theorem initParamWidget_typeOf (g sk : String) (st : Store) (param : Parameter) :
    ((initParamWidget g sk st param).value).typeOf = param.type := by
  rcases param with ⟨pk, pn, pt, pd⟩
  cases pt <;> simp [initParamWidget, ParamValue.typeOf]

theorem param_init_eq (g ik : String) (script : SQLScript) (presets : List Preset) (st : Store)
    (j : Nat) (hj : j < script.metadata.parameters.length)
    (hcol : presets = [] ∨ (script.metadata.parameters.getD j dummyParam).key ≠ "preset") :
    ((buildPanel g ik script presets st).paramWidgets.getD j dummyWidget).value =
      specInitValue (script.metadata.parameters.getD j dummyParam)
        (st (paramSettingKey g script.metadata.key
          (script.metadata.parameters.getD j dummyParam).key)) := by
  rw [buildPanel_paramWidgets, getD_map_lt _ _ j hj dummyWidget dummyParam,
    initParamWidget_value]
  congr 1
  apply presetStage_store_at
  rcases hcol with h | h
  · exact Or.inl h
  · exact Or.inr (paramKey_ne_presetKey _ _ _ h)

theorem lookupWidgets_ok_iff (f : String → Except String String) (ns : List String) :
    (∃ ws, lookupWidgets f ns = Except.ok ws) ↔ ∀ n ∈ ns, ∃ w, f n = Except.ok w := by
  induction ns with
  | nil => simp [lookupWidgets]
  | cons n t ih =>
    unfold lookupWidgets
    cases hfn : f n with
    | error e => simp [hfn]
    | ok w =>
      cases hlw : lookupWidgets f t with
      | error e =>
        rw [hlw] at ih
        simp only [hfn, hlw]
        simp [hfn] at ih ⊢
        tauto
      | ok ws =>
        rw [hlw] at ih
        simp only [hfn, hlw]
        simp [hfn] at ih ⊢
        tauto

theorem lookupWidgets_error (f : String → Except String String) (ns : List String) (e : String)
    (h : lookupWidgets f ns = Except.error e) : ∃ n ∈ ns, f n = Except.error e := by
  induction ns with
  | nil => simp [lookupWidgets] at h
  | cons n t ih =>
    unfold lookupWidgets at h
    cases hfn : f n with
    | error e2 =>
      rw [hfn] at h
      cases h
      exact ⟨n, by simp, hfn⟩
    | ok w =>
      rw [hfn] at h
      cases hlw : lookupWidgets f t with
      | error e2 =>
        rw [hlw] at h
        cases h
        obtain ⟨m, hm, hme⟩ := ih hlw
        exact ⟨m, by simp [hm], hme⟩
      | ok ws =>
        rw [hlw] at h
        exact absurd h (by simp)

theorem presetStage_no_presets (g s : String) (params : List Parameter) (st : Store)
    (hp : params ≠ []) :
    presetStage g s params [] st =
      ⟨some ⟨["No Preset"], 0, false⟩, some false, false, false, st, false⟩ := by
  cases params with
  | nil => exact absurd rfl hp
  | cons a t => rfl

theorem buildPanel_paramsEnabled_of_tap_false (g ik : String) (script : SQLScript)
    (presets : List Preset) (st : Store)
    (h : (presetStage g script.metadata.key script.metadata.parameters presets st).tap = false) :
    (buildPanel g ik script presets st).paramsEnabled = true := by
  unfold buildPanel
  dsimp only
  split
  · simp [toggleSlot, h]
  · simp [h]

theorem c3Inv_build (g ik : String) (script : SQLScript) (st : Store)
    (hp : script.metadata.parameters ≠ []) :
    c3Inv (buildPanel g ik script [] st) := by
  have hs := presetStage_no_presets g script.metadata.key script.metadata.parameters st hp
  refine ⟨?_, ?_, ?_, ?_⟩
  · rw [buildPanel_combo, hs]
  · rw [buildPanel_labelVisible, hs]
  · rw [buildPanel_ctx, hs]
  · exact buildPanel_paramsEnabled_of_tap_false g ik script [] st (by rw [hs])

theorem c3Inv_step (p : Panel) (e : Event) (h : c3Inv p) : c3Inv (step p e) := by
  obtain ⟨hc, hl, ht, hp⟩ := h
  cases e with
  | selectPreset i =>
    simp only [step]
    split
    · exact ⟨hc, hl, ht, hp⟩
    · rename_i c hc2
      rw [hc] at hc2
      injection hc2 with h3
      subst h3
      rw [if_neg]
      · exact ⟨hc, hl, ht, hp⟩
      · rintro ⟨h1, h2⟩
        simp at h1 h2
        omega
  | toggleMaster b =>
    simp only [step]
    split
    · exact ⟨hc, hl, ht, hp⟩
    · refine ⟨hc, hl, ht, ?_⟩
      simp [toggleSlot, ht]
  | setParam j v =>
    simp only [step]
    split
    · split
      · split
        · exact ⟨hc, hl, ht, hp⟩
        · exact ⟨hc, hl, ht, hp⟩
      · split
        · exact ⟨hc, hl, ht, hp⟩
        · exact ⟨hc, hl, ht, hp⟩
      · split
        · exact ⟨hc, hl, ht, hp⟩
        · exact ⟨hc, hl, ht, hp⟩
      · exact ⟨hc, hl, ht, hp⟩
    · exact ⟨hc, hl, ht, hp⟩

theorem c3Inv_run (p : Panel) (es : List Event) (h : c3Inv p) : c3Inv (runEvents p es) := by
  induction es generalizing p with
  | nil => exact h
  | cons e t ih => exact ih _ (c3Inv_step p e h)

theorem buildPanel_store_eq_stage (g ik : String) (script : SQLScript) (presets : List Preset)
    (st : Store) (k : String) (h1 : k ≠ enabledSettingKey g script.metadata.key) :
    (buildPanel g ik script presets st).store k =
      (presetStage g script.metadata.key script.metadata.parameters presets st).store k := by
  unfold buildPanel
  dsimp only
  split
  · simp only [toggleSlot]
    exact Store.set_ne _ _ _ _ h1
  · rfl

theorem presetStage_with_presets (g s : String) (params : List Parameter)
    (presets : List Preset) (st : Store) (hp : params ≠ []) (hpr : presets ≠ []) :
    presetStage g s params presets st =
      (if specLoadedIndex (st (presetSettingKey g s))
            ("No Preset" :: presets.map Preset.name) ≠ 0
       then ⟨some ⟨"No Preset" :: presets.map Preset.name,
              specLoadedIndex (st (presetSettingKey g s))
                ("No Preset" :: presets.map Preset.name), true⟩,
             some true, true, true, st, true⟩
       else ⟨some ⟨"No Preset" :: presets.map Preset.name, 0, true⟩, some true, true, false,
             st.set (presetSettingKey g s) (.s ""), true⟩) := by
  cases params with
  | nil => exact absurd rfl hp
  | cons a t =>
    cases presets with
    | nil => exact absurd rfl hpr
    | cons b bt => rfl

/-! ## Claim theorems -/

/-- C1: the claimed invariant — the parameter-controls container is enabled
iff NOT(presets-available AND preset-currently-selected) in every reachable
state — fails on the code. Concretely: for a script with one parameter and
one supplied preset, after the user selects the preset, selects the sentinel
again, and then checks the master toggle, presets are available, no preset is
selected, and yet the parameter controls are disabled (the preset slot
persisted the sentinel's literal text "No Preset" and the toggle slot treats
any non-empty persisted preset text as a selected preset). -/
theorem c1_enablement_invariant_violation :
    presetsAvailable script1 presets1 = true ∧
    panelPresetSelected (runEvents (buildPanel "g" "icon" script1 presets1 emptyStore)
      [.selectPreset 1, .selectPreset 0, .toggleMaster true]) = false ∧
    (runEvents (buildPanel "g" "icon" script1 presets1 emptyStore)
      [.selectPreset 1, .selectPreset 0, .toggleMaster true]).paramsEnabled = false := by
  decide

/-- C2: the claim that selecting the sentinel entry at index 0 persists the
empty string fails on the code. Selecting any entry sets the
parameter-controls enablement to (index == 0) — part (a) holds — but the slot
persists `item_text(index)`, which at the sentinel is the literal display
text "No Preset", not the empty string. -/
theorem c2_sentinel_selection_persists_display_text :
    (runEvents (buildPanel "g" "icon" script1 presets1 emptyStore)
      [.selectPreset 1, .selectPreset 0]).paramsEnabled = true ∧
    (runEvents (buildPanel "g" "icon" script1 presets1 emptyStore)
      [.selectPreset 1, .selectPreset 0]).store (presetSettingKey "g" "s1") =
      some (.s "No Preset") := by
  decide

/-- C3 counterexample: for a script with one parameter and an empty preset
list, built from an empty store, the master toggle is unchecked and yet the
parameter controls are enabled — refuting the claim that the controls are
enabled exactly when the master toggle is on. -/
theorem c3_counterexample_params_enabled_with_toggle_off :
    (buildPanel "g" "icon" script3 [] emptyStore).checkboxChecked = false ∧
    (buildPanel "g" "icon" script3 [] emptyStore).paramsEnabled = true := by
  decide

/-- C3 (amended): for every script with a non-empty parameter list and an
empty preset list, the preset selector and its label exist but are not
visible, and the parameter controls are enabled regardless of the master
toggle's state, in every state reachable by user events (the enablement rule
keeps them enabled because no presets are available). -/
theorem c3_no_presets_hidden_selector_params_enabled (g ik : String) (script : SQLScript)
    (st : Store) (es : List Event) (hp : script.metadata.parameters ≠ []) :
    (runEvents (buildPanel g ik script [] st) es).combo =
      some ⟨["No Preset"], 0, false⟩ ∧
    (runEvents (buildPanel g ik script [] st) es).presetLabelVisible = some false ∧
    (runEvents (buildPanel g ik script [] st) es).paramsEnabled = true := by
  have h := c3Inv_run _ es (c3Inv_build g ik script st hp)
  exact ⟨h.1, h.2.1, h.2.2.2⟩

/-- Witness for C3 (amended) at a concrete script, store and event list. -/
theorem c3_no_presets_witness :
    script3.metadata.parameters ≠ [] ∧
    ((runEvents (buildPanel "g" "icon" script3 [] emptyStore) [.toggleMaster true]).combo =
        some ⟨["No Preset"], 0, false⟩ ∧
      (runEvents (buildPanel "g" "icon" script3 [] emptyStore)
        [.toggleMaster true]).presetLabelVisible = some false ∧
      (runEvents (buildPanel "g" "icon" script3 [] emptyStore)
        [.toggleMaster true]).paramsEnabled = true) :=
  ⟨by decide, c3_no_presets_hidden_selector_params_enabled "g" "icon" script3 emptyStore
    [.toggleMaster true] (by decide)⟩

/-- C4: immediately after construction the master toggle's checked state
equals (persisted enabled setting) OR script.automatic, and an automatic
script has every visual element of the panel hidden with the toggle checked
regardless of the persisted toggle setting. -/
theorem c4_checked_state_and_automatic_hiding (g ik : String) (script : SQLScript)
    (presets : List Preset) (st : Store) :
    (buildPanel g ik script presets st).checkboxChecked =
      (setting_bool st (enabledSettingKey g script.metadata.key) ||
        script.metadata.automatic) ∧
    (script.metadata.automatic = true →
      (buildPanel g ik script presets st).iconVisible = false ∧
      (buildPanel g ik script presets st).textVisible = false ∧
      (buildPanel g ik script presets st).fillVisible = false ∧
      (buildPanel g ik script presets st).checkboxVisible = false ∧
      (buildPanel g ik script presets st).presetsContainerVisible = false ∧
      (buildPanel g ik script presets st).paramsContainerVisible = false ∧
      (buildPanel g ik script presets st).checkboxChecked = true) := by
  refine ⟨buildPanel_checked g ik script presets st, fun ha => ?_⟩
  refine ⟨?_, ?_, ?_, ?_, ?_, ?_, ?_⟩
  · rw [buildPanel_iconVisible, ha]
    rfl
  · rw [buildPanel_textVisible, ha]
    rfl
  · rw [buildPanel_fillVisible, ha]
    rfl
  · rw [buildPanel_checkboxVisible, ha]
    rfl
  · rw [buildPanel_presetsContainerVisible, ha]
    rfl
  · rw [buildPanel_paramsContainerVisible, ha]
    rfl
  · rw [buildPanel_checked, ha]
    simp

/-- Witness for C4 at an automatic script with the persisted toggle off. -/
theorem c4_automatic_witness :
    (buildPanel "g" "icon" scriptAuto [] emptyStore).iconVisible = false ∧
    (buildPanel "g" "icon" scriptAuto [] emptyStore).textVisible = false ∧
    (buildPanel "g" "icon" scriptAuto [] emptyStore).fillVisible = false ∧
    (buildPanel "g" "icon" scriptAuto [] emptyStore).checkboxVisible = false ∧
    (buildPanel "g" "icon" scriptAuto [] emptyStore).presetsContainerVisible = false ∧
    (buildPanel "g" "icon" scriptAuto [] emptyStore).paramsContainerVisible = false ∧
    (buildPanel "g" "icon" scriptAuto [] emptyStore).checkboxChecked = true :=
  (c4_checked_state_and_automatic_hiding "g" "icon" scriptAuto [] emptyStore).2 rfl

/-- C9: for every script whose parameter list is empty, no preset selector
and no parameter-editing controls are created, whatever the preset list. -/
theorem c9_no_params_no_preset_selector (g ik : String) (script : SQLScript)
    (presets : List Preset) (st : Store) (h : script.metadata.parameters = []) :
    (buildPanel g ik script presets st).combo = none ∧
    (buildPanel g ik script presets st).paramWidgets = [] := by
  constructor
  · rw [buildPanel_combo, h]
    rfl
  · rw [buildPanel_paramWidgets, h]
    rfl

/-- Witness for C9 at a script with no parameters and a non-empty preset
list. -/
theorem c9_witness :
    scriptNoParams.metadata.parameters = [] ∧
    ((buildPanel "g" "icon" scriptNoParams presets1 emptyStore).combo = none ∧
      (buildPanel "g" "icon" scriptNoParams presets1 emptyStore).paramWidgets = []) :=
  ⟨rfl, c9_no_params_no_preset_selector "g" "icon" scriptNoParams presets1 emptyStore rfl⟩

/-- C10: `update_icons` assigns a pixmap exactly to the menu actions at
indices smaller than both the action count and 8, even though a match arm
for index 8 (the dev-only-UI option) exists: the guard `index < 8` makes it
unreachable, so the ninth launch option's icon label is never modified. -/
theorem c10_update_icons_first_eight_only (n i : Nat) :
    (i ∈ updatedIconIndices n ↔ i < n ∧ i < 8) ∧
    (launchOptionIconKeys 8).isSome = true := by
  constructor
  · have harm : ∀ m, m < 8 → (launchOptionIconKeys m).isSome = true := by decide
    simp only [updatedIconIndices, List.mem_filter, List.mem_range, Bool.and_eq_true,
      decide_eq_true_eq]
    constructor
    · rintro ⟨h1, h2, _⟩
      exact ⟨h1, h2⟩
    · rintro ⟨h1, h2⟩
      exact ⟨h1, h2, harm i h2⟩
  · rfl

/-- C5: for a script with parameters and a non-empty preset list, the
persisted preset choice is loaded at construction; a present, non-empty
persisted text selects the matching entry; if the resulting index is
non-zero, "preset currently selected" is marked true and the persisted
preset setting is left unchanged, otherwise it is overwritten with the
empty string. -/
theorem c5_preset_restore (g ik : String) (script : SQLScript) (presets : List Preset)
    (st : Store) (hp : script.metadata.parameters ≠ []) (hpr : presets ≠ []) :
    ∃ c, (buildPanel g ik script presets st).combo = some c ∧
      c.items = "No Preset" :: presets.map Preset.name ∧
      c.currentIndex =
        specLoadedIndex (st (presetSettingKey g script.metadata.key)) c.items ∧
      (c.currentIndex ≠ 0 →
        (buildPanel g ik script presets st).isPresetSelected = true ∧
        (buildPanel g ik script presets st).store (presetSettingKey g script.metadata.key) =
          st (presetSettingKey g script.metadata.key)) ∧
      (c.currentIndex = 0 →
        (buildPanel g ik script presets st).isPresetSelected = false ∧
        (buildPanel g ik script presets st).store (presetSettingKey g script.metadata.key) =
          some (.s "")) := by
  have hps := presetStage_with_presets g script.metadata.key script.metadata.parameters
    presets st hp hpr
  have hne : presetSettingKey g script.metadata.key ≠ enabledSettingKey g script.metadata.key :=
    Ne.symm (enabledKey_ne_presetKey g script.metadata.key)
  by_cases hidx : specLoadedIndex (st (presetSettingKey g script.metadata.key))
      ("No Preset" :: presets.map Preset.name) = 0
  · rw [if_neg (not_ne_iff.mpr hidx)] at hps
    refine ⟨⟨"No Preset" :: presets.map Preset.name, 0, true⟩, ?_, rfl, ?_, ?_, ?_⟩
    · rw [buildPanel_combo, hps]
    · exact hidx.symm
    · intro hne0
      exact absurd rfl hne0
    · intro _
      refine ⟨?_, ?_⟩
      · rw [buildPanel_ips, hps]
      · rw [buildPanel_store_eq_stage g ik script presets st _ hne, hps]
        exact Store.set_self st _ _
  · rw [if_pos hidx] at hps
    refine ⟨⟨"No Preset" :: presets.map Preset.name,
      specLoadedIndex (st (presetSettingKey g script.metadata.key))
        ("No Preset" :: presets.map Preset.name), true⟩, ?_, rfl, rfl, ?_, ?_⟩
    · rw [buildPanel_combo, hps]
    · intro _
      refine ⟨?_, ?_⟩
      · rw [buildPanel_ips, hps]
      · rw [buildPanel_store_eq_stage g ik script presets st _ hne, hps]
    · intro h0
      exact absurd h0 hidx

/-- Witness for C5: one Float-parameter script, presets ["p"], and a store
persisting the preset text "p" (which resolves to index 1). -/
theorem c5_witness :
    scriptW.metadata.parameters ≠ [] ∧ presets1 ≠ [] ∧
    (∃ c, (buildPanel "g" "icon" scriptW presets1 stW5).combo = some c ∧
      c.items = "No Preset" :: presets1.map Preset.name ∧
      c.currentIndex =
        specLoadedIndex (stW5 (presetSettingKey "g" scriptW.metadata.key)) c.items ∧
      (c.currentIndex ≠ 0 →
        (buildPanel "g" "icon" scriptW presets1 stW5).isPresetSelected = true ∧
        (buildPanel "g" "icon" scriptW presets1 stW5).store
          (presetSettingKey "g" scriptW.metadata.key) =
          stW5 (presetSettingKey "g" scriptW.metadata.key)) ∧
      (c.currentIndex = 0 →
        (buildPanel "g" "icon" scriptW presets1 stW5).isPresetSelected = false ∧
        (buildPanel "g" "icon" scriptW presets1 stW5).store
          (presetSettingKey "g" scriptW.metadata.key) = some (.s ""))) :=
  ⟨by decide, by decide,
    c5_preset_restore "g" "icon" scriptW presets1 stW5 (by decide) (by decide)⟩

/-- C6 counterexample: a parameter keyed "preset" shares its settings key
with the preset-selection key. Built from an empty store with one preset
supplied, its control comes out false even though the claim (no persisted
setting, default "true") demands true: construction itself overwrites the
shared key with the empty string before the parameter is initialized. -/
theorem c6_counterexample_preset_key_collision :
    ((buildPanel "g" "icon" script6 presets1 emptyStore).paramWidgets.getD 0
      dummyWidget).value = ParamValue.pb false ∧
    specInitValue (script6.metadata.parameters.getD 0 dummyParam)
      (emptyStore (paramSettingKey "g" script6.metadata.key
        (script6.metadata.parameters.getD 0 dummyParam).key)) = ParamValue.pb true := by
  decide

/-- C6 (amended): every parameter control is initialized from the persisted
setting (game_key, script.key, parameter.key) when present, and otherwise
from the default value parsed per type with parse failures falling back to
the type's zero value, with no error raised — provided the preset list is
empty or the parameter's key is not "preset" (whose settings key collides
with the preset-selection key). -/
theorem c6_param_initialization (g ik : String) (script : SQLScript) (presets : List Preset)
    (st : Store) (j : Nat) (hj : j < script.metadata.parameters.length)
    (hcol : presets = [] ∨ (script.metadata.parameters.getD j dummyParam).key ≠ "preset") :
    ((buildPanel g ik script presets st).paramWidgets.getD j dummyWidget).value =
      specInitValue (script.metadata.parameters.getD j dummyParam)
        (st (paramSettingKey g script.metadata.key
          (script.metadata.parameters.getD j dummyParam).key)) :=
  param_init_eq g ik script presets st j hj hcol

/-- Witness for C6 at a script whose integer parameter has the malformed
default "not_a_number" and an empty store: the control falls back to 0. -/
theorem c6_witness :
    0 < scriptBadDefault.metadata.parameters.length ∧
    ((buildPanel "g" "icon" scriptBadDefault [] emptyStore).paramWidgets.getD 0
        dummyWidget).value =
      specInitValue (scriptBadDefault.metadata.parameters.getD 0 dummyParam)
        (emptyStore (paramSettingKey "g" scriptBadDefault.metadata.key
          (scriptBadDefault.metadata.parameters.getD 0 dummyParam).key)) :=
  ⟨by decide,
    c6_param_initialization "g" "icon" scriptBadDefault [] emptyStore 0 (by decide)
      (Or.inl rfl)⟩

/-- C8: the only fallible operations in `ActionsUI::new` are loading the UI
template and locating named widgets; construction succeeds iff they all
succeed, and any failure is propagated as the error result of `new` (no
`ActionsUI` value is produced). -/
theorem c8_error_propagation (env : NewEnv) :
    ((∃ ui, newActionsUI env = Except.ok ui) ↔
      ((∃ t, env.load_template = Except.ok t) ∧
        ∀ n ∈ requiredWidgetNames, ∃ w, env.find_widget n = Except.ok w)) ∧
    (∀ e, newActionsUI env = Except.error e →
      env.load_template = Except.error e ∨
        ∃ n ∈ requiredWidgetNames, env.find_widget n = Except.error e) := by
  constructor
  · unfold newActionsUI
    cases hlt : env.load_template with
    | error e => simp [hlt]
    | ok main =>
      cases hlw : lookupWidgets env.find_widget requiredWidgetNames with
      | error e =>
        have hiff := lookupWidgets_ok_iff env.find_widget requiredWidgetNames
        rw [hlw] at hiff
        simp at hiff
        simp [hlt, hlw]
        tauto
      | ok ws =>
        have hiff := lookupWidgets_ok_iff env.find_widget requiredWidgetNames
        rw [hlw] at hiff
        simp at hiff
        simp [hlt, hlw]
        tauto
  · intro e he
    unfold newActionsUI at he
    cases hlt : env.load_template with
    | error e2 =>
      rw [hlt] at he
      cases he
      exact Or.inl rfl
    | ok main =>
      rw [hlt] at he
      cases hlw : lookupWidgets env.find_widget requiredWidgetNames with
      | error e2 =>
        rw [hlw] at he
        cases he
        exact Or.inr (lookupWidgets_error _ _ _ hlw)
      | ok ws =>
        rw [hlw] at he
        exact absurd he (by simp)

/-- Witness for C8 at an environment in which everything succeeds. -/
theorem c8_witness : ∃ ui, newActionsUI envOk = Except.ok ui :=
  (c8_error_propagation envOk).1.mpr ⟨⟨"main", rfl⟩, fun n _ => ⟨n, rfl⟩⟩

/-- C7 counterexample: for a script whose single Bool parameter is keyed
"preset" and one supplied preset, setting the control to true persists it,
yet rebuilding the panel from the resulting store initializes the control to
false — the preset-restore logic of the rebuild overwrites the shared
settings key with the empty string before the parameter is read. -/
theorem c7_counterexample_roundtrip_fails_on_preset_key :
    ((step (buildPanel "g" "icon" script7 presets1 emptyStore)
        (.setParam 0 (.pb true))).paramWidgets.getD 0 dummyWidget).value =
      ParamValue.pb true ∧
    ((buildPanel "g" "icon" script7 presets1
        (step (buildPanel "g" "icon" script7 presets1 emptyStore)
          (.setParam 0 (.pb true))).store).paramWidgets.getD 0 dummyWidget).value =
      ParamValue.pb false := by
  decide

/-- C7 (amended): setting a parameter control to a value v (persisting it
through the control's slot) and rebuilding the panel from the resulting
settings store yields a control initialized to v, for all three parameter
types — provided the preset list is empty or the parameter's key is not
"preset" (whose settings key collides with the preset-selection key). -/
theorem c7_roundtrip_amended (g ik : String) (script : SQLScript) (presets : List Preset)
    (st : Store) (j : Nat) (v : ParamValue)
    (hj : j < script.metadata.parameters.length)
    (hty : v.typeOf = (script.metadata.parameters.getD j dummyParam).type)
    (hcol : presets = [] ∨ (script.metadata.parameters.getD j dummyParam).key ≠ "preset") :
    ((buildPanel g ik script presets
        (step (buildPanel g ik script presets st) (.setParam j v)).store).paramWidgets.getD j
      dummyWidget).value = v := by
  have hw : (buildPanel g ik script presets st).paramWidgets.getD j dummyWidget =
      initParamWidget g script.metadata.key
        (presetStage g script.metadata.key script.metadata.parameters presets st).store
        (script.metadata.parameters.getD j dummyParam) := by
    rw [buildPanel_paramWidgets, getD_map_lt _ _ j hj dummyWidget dummyParam]
  have hlen : j < (buildPanel g ik script presets st).paramWidgets.length := by
    rw [buildPanel_paramWidgets, List.length_map]
    exact hj
  have hpstore : (buildPanel g ik script presets st).store
      (paramSettingKey g script.metadata.key
        (script.metadata.parameters.getD j dummyParam).key) =
      (presetStage g script.metadata.key script.metadata.parameters presets st).store
        (paramSettingKey g script.metadata.key
          (script.metadata.parameters.getD j dummyParam).key) :=
    buildPanel_store_eq_stage g ik script presets st _ (paramKey_ne_enabledKey _ _ _)
  have hvaleq : ((buildPanel g ik script presets st).paramWidgets.getD j dummyWidget).value =
      specInitValue (script.metadata.parameters.getD j dummyParam)
        ((presetStage g script.metadata.key script.metadata.parameters presets st).store
          (paramSettingKey g script.metadata.key
            (script.metadata.parameters.getD j dummyParam).key)) := by
    rw [hw, initParamWidget_value]
  have htw : ((buildPanel g ik script presets st).paramWidgets.getD j
      dummyWidget).value.typeOf = (script.metadata.parameters.getD j dummyParam).type := by
    rw [hw]
    exact initParamWidget_typeOf _ _ _ _
  have hkproj : ((buildPanel g ik script presets st).paramWidgets.getD j
      dummyWidget).settingKey =
      paramSettingKey g script.metadata.key
        (script.metadata.parameters.getD j dummyParam).key := by
    rw [hw]
    rfl
  rw [param_init_eq g ik script presets _ j hj hcol]
  simp only [step]
  rw [if_pos hlen]
  cases hv : v with
  | pb x =>
    subst hv
    simp only [ParamValue.typeOf] at hty
    cases hwv : ((buildPanel g ik script presets st).paramWidgets.getD j dummyWidget).value with
    | pb a =>
      simp only [hwv]
      by_cases hax : a = x
      · rw [if_pos hax, hpstore, ← hvaleq, hwv, hax]
      · rw [if_neg hax]
        dsimp only
        rw [hkproj, Store.set_self]
        simp only [specInitValue]
        rw [← hty]
        simp [qvariantToBool]
    | pi a =>
      rw [hwv] at htw
      simp only [ParamValue.typeOf] at htw
      rw [← hty] at htw
      simp at htw
    | pf a =>
      rw [hwv] at htw
      simp only [ParamValue.typeOf] at htw
      rw [← hty] at htw
      simp at htw
  | pi x =>
    subst hv
    simp only [ParamValue.typeOf] at hty
    cases hwv : ((buildPanel g ik script presets st).paramWidgets.getD j dummyWidget).value with
    | pb a =>
      rw [hwv] at htw
      simp only [ParamValue.typeOf] at htw
      rw [← hty] at htw
      simp at htw
    | pi a =>
      simp only [hwv]
      by_cases hax : a = x
      · rw [if_pos hax, hpstore, ← hvaleq, hwv, hax]
      · rw [if_neg hax]
        dsimp only
        rw [hkproj, Store.set_self]
        simp only [specInitValue]
        rw [← hty]
        simp [qvariantToInt]
    | pf a =>
      rw [hwv] at htw
      simp only [ParamValue.typeOf] at htw
      rw [← hty] at htw
      simp at htw
  | pf x =>
    subst hv
    simp only [ParamValue.typeOf] at hty
    cases hwv : ((buildPanel g ik script presets st).paramWidgets.getD j dummyWidget).value with
    | pb a =>
      rw [hwv] at htw
      simp only [ParamValue.typeOf] at htw
      rw [← hty] at htw
      simp at htw
    | pi a =>
      rw [hwv] at htw
      simp only [ParamValue.typeOf] at htw
      rw [← hty] at htw
      simp at htw
    | pf a =>
      simp only [hwv]
      by_cases hax : a = x
      · rw [if_pos hax, hpstore, ← hvaleq, hwv, hax]
      · rw [if_neg hax]
        dsimp only
        rw [hkproj, Store.set_self]
        simp only [specInitValue]
        rw [← hty]
        simp [qvariantToRat]

/-- Witness for C7 (amended) at the Float parameter of `scriptW`. -/
theorem c7_witness :
    ((buildPanel "g" "icon" scriptW presets1
        (step (buildPanel "g" "icon" scriptW presets1 emptyStore)
          (.setParam 2 (.pf 2))).store).paramWidgets.getD 2 dummyWidget).value =
      ParamValue.pf 2 :=
  c7_roundtrip_amended "g" "icon" scriptW presets1 emptyStore 2 (.pf 2) (by decide) (by decide)
    (Or.inr (by decide))
